import Mathlib

/-!
Verification of the baddns detection pipeline (CNAME and NS detection modules).

The definitions below are a shallow embedding of `src/baddns/modules/cname.py`
and `src/baddns/modules/ns.py`.  The `dispatch` phases perform network calls
through collaborators; `analyze` is pure over the state that `dispatch`
captured, so the embedding models that captured state explicitly and
translates `analyze` (and the relevant pieces of `dispatch`) as pure
functions over it.  External collaborators (dateutil's parser, the Matcher
Engine's rule evaluation) are passed in as function parameters.
-/

namespace BadDNS

/-- Python's `hay.endswith(suf)`. -/
def strEndsWith (hay suf : String) : Bool := suf.data.isSuffixOf hay.data

/-- Membership of `needle` as a contiguous run of `hay` (char-list form). -/
def charsContain (needle : List Char) : List Char → Bool
  | [] => needle.isPrefixOf []
  | h :: t => needle.isPrefixOf (h :: t) || charsContain needle t

/-- Python's `needle in hay` substring test on strings. -/
def strContainsSub (hay needle : String) : Bool := charsContain needle.data hay.data

/-- One entry of a signature's `identifiers.cnames` list (`{value: string}`). -/
structure SigCname where
  value : String
deriving DecidableEq, Repr

/-- A signature corpus entry, per the signature record interface:
`mode`, `service_name`, `identifiers.{cnames, ips, nameservers}`, `matcher_rule`
(the matcher rule is opaque to the core and kept as an uninterpreted string). -/
structure Signature where
  mode : String
  service_name : String
  cnames : List SigCname
  ips : List String
  nameservers : List String
  matcher_rule : String
deriving DecidableEq, Repr

/-- A finding dictionary.  Keys that a given technique does not set are `none`
(`[]` for the list-valued keys). -/
structure Finding where
  target : String
  cnames : List String
  nameservers : List String
  signature_name : Option String
  matching_domain : Option String
  matching_signatures : Option (List String)
  technique : String
  expiration_date : Option String
deriving DecidableEq, Repr

/-- A calendar date (the `.date()` part of a Python datetime). -/
structure Date where
  year : Nat
  month : Nat
  day : Nat
deriving DecidableEq, Repr

/-- A time of day. -/
structure Time where
  hour : Nat
  minute : Nat
  second : Nat
deriving DecidableEq, Repr

/-- A Python `datetime` value: a calendar date plus a time of day. -/
structure DateTime where
  date : Date
  time : Time
deriving DecidableEq, Repr

/-- Python date comparison `d < e` (lexicographic on year, month, day). -/
def Date.isBefore (d e : Date) : Bool :=
  decide (d.year < e.year ∨ (d.year = e.year ∧
    (d.month < e.month ∨ (d.month = e.month ∧ d.day < e.day))))

/-- Left-pad the decimal representation of `n` with zeros to width `w`. -/
def padNat (w n : Nat) : String :=
  let s := toString n
  if s.length < w then String.mk (List.replicate (w - s.length) '0') ++ s else s

/-- Python `strftime("%Y-%m-%d %H:%M:%S")`. -/
def formatDateTime (d : DateTime) : String :=
  padNat 4 d.date.year ++ "-" ++ padNat 2 d.date.month ++ "-" ++ padNat 2 d.date.day ++ " " ++
    padNat 2 d.time.hour ++ ":" ++ padNat 2 d.time.minute ++ ":" ++ padNat 2 d.time.second

/-- A dynamically-typed value that can appear as WHOIS expiration data:
a structured datetime, a free-form string, or some unsupported object type. -/
inductive DateValue where
  | dt (d : DateTime)
  | str (s : String)
  | other
deriving DecidableEq, Repr

/-- Embeds `BadDNS_cname.date_parse` from `cname.py`: a structured datetime is
returned as-is; a string is handed to the lenient external parser (`parse`),
whose failure yields `none`; anything else yields `none`. -/
def date_parse (parse : String → Option DateTime) : DateValue → Option DateTime
  | DateValue.dt d => some d
  | DateValue.str s => parse s
  | DateValue.other => none

/-- The `expiration_date` field of a WHOIS response: a single value, or a
(non-empty, the code indexes element 0) list of values. -/
inductive ExpirationField where
  | one (v : DateValue)
  | many (hd : DateValue) (tl : List DateValue)
deriving DecidableEq, Repr

/-- Embeds `expiration_data[0] if isinstance(expiration_data, list) else expiration_data`. -/
def extractExpiration : ExpirationField → DateValue
  | ExpirationField.one v => v
  | ExpirationField.many hd _ => hd

/-- A WHOIS result: `{type: "error", data: string}` or
`{type: "response", data: {expiration_date: ...}}`. -/
inductive WhoisResult where
  | error (data : String)
  | response (expiration : ExpirationField)
deriving DecidableEq, Repr

/-- The state of a `BadDNS_cname` instance after `dispatch`, as read by
`analyze`: the original target and its CNAME chain (from
`target_dnsmanager`), the chain-tail manager's target, NXDOMAIN flag and
resolved IPs (from `cname_dnsmanager`), the four HTTP fetch results (from
`target_httpmanager`), and the WHOIS result (from `cname_whoismanager`). -/
structure CnameState where
  target : String
  cnameChain : List String
  cnameTarget : String
  nxdomain : Bool
  cnameIps : List String
  httpAllowRedirects : Option String
  httpDenyRedirects : Option String
  httpsAllowRedirects : Option String
  httpsDenyRedirects : Option String
  whoisResult : Option WhoisResult
deriving DecidableEq, Repr

/-- The `http_results` list built at the top of the live branch. -/
def httpResultsList (st : CnameState) : List (Option String) :=
  [st.httpAllowRedirects, st.httpDenyRedirects, st.httpsAllowRedirects, st.httpsDenyRedirects]

/-- The inner loop of the NXDOMAIN branch: the first configured CNAME pattern
of a signature that is a suffix of the tail domain (`break` on first hit). -/
def firstSuffixMatch (tail : String) (cnames : List SigCname) : Option String :=
  (cnames.find? (fun c => strEndsWith tail c.value)).map SigCname.value

/-- The NXDOMAIN-branch signature loop of `BadDNS_cname.analyze`.  The
accumulator holds `(signature_name, matching_domain)`; a signature whose
pattern list yields a suffix match overwrites the accumulator, and the loop
continues over the rest of the corpus (the `break` in the source exits only
the inner pattern loop). -/
def nxdomainScanAux (tail : String) (acc : String × Option String) :
    List Signature → String × Option String
  | [] => acc
  | sig :: rest =>
    if sig.mode = "dns_nxdomain" then
      match firstSuffixMatch tail sig.cnames with
      | some p => nxdomainScanAux tail (sig.service_name, some p) rest
      | none => nxdomainScanAux tail acc rest
    else nxdomainScanAux tail acc rest

/-- The NXDOMAIN-branch scan started from the defaults
`signature_name = "Generic Dangling CNAME"`, `matching_domain = None`. -/
def nxdomainScan (tail : String) (sigs : List Signature) : String × Option String :=
  nxdomainScanAux tail ("Generic Dangling CNAME", none) sigs

/-- The finding appended by the NXDOMAIN branch. -/
def nxdomainFinding (st : CnameState) (r : String × Option String) : Finding :=
  ⟨st.target, st.cnameChain, [], some r.1, r.2, none, "CNAME NXDOMAIN", none⟩

/-- The per-signature guard of the live (HTTP) branch of
`BadDNS_cname.analyze`: the CNAME-identifier filter (skipped when the
signature declares none), the IP-identifier filter (likewise), then the
Matcher Engine applied to the non-null HTTP results.  `im` models
`Matcher(rule).is_match`. -/
def liveSigMatches (im : String → String → Bool) (st : CnameState) (sig : Signature) : Bool :=
  (sig.cnames.isEmpty || sig.cnames.any (fun c => strContainsSub (st.cnameChain.getLastD "") c.value))
    && (sig.ips.isEmpty || sig.ips.any (fun ip => st.cnameIps.contains ip))
    && (httpResultsList st).any (fun hr =>
        match hr with
        | some r => im sig.matcher_rule r
        | none => false)

/-- The finding appended for one matching `http`-mode signature. -/
def httpFinding (st : CnameState) (sig : Signature) : Finding :=
  ⟨st.target, st.cnameChain, [], some sig.service_name, none, none, "HTTP String Match", none⟩

/-- The live-branch signature loop of `BadDNS_cname.analyze`: every
`http`-mode signature is tried; a failed filter or matcher `continue`s to
the next signature, a success appends a finding and also continues. -/
def liveScan (im : String → String → Bool) (st : CnameState) : List Signature → List Finding
  | [] => []
  | sig :: rest =>
    if sig.mode = "http" then
      if liveSigMatches im st sig then httpFinding st sig :: liveScan im st rest
      else liveScan im st rest
    else liveScan im st rest

/-- The branch part of `BadDNS_cname.analyze` (everything before the WHOIS
cross-check): the NXDOMAIN branch when the chain tail reported NXDOMAIN,
otherwise the live HTTP branch. -/
def branchFindings (im : String → String → Bool) (sigs : List Signature) (st : CnameState) :
    List Finding :=
  if st.nxdomain then [nxdomainFinding st (nxdomainScan st.cnameTarget sigs)]
  else liveScan im st sigs

/-- The finding appended for an unregistered CNAME base domain. -/
def unregisteredFinding (st : CnameState) : Finding :=
  ⟨st.target, st.cnameChain, [], none, none, none, "CNAME unregistered", none⟩

/-- The finding appended for an expired CNAME base domain. -/
def expiredFinding (st : CnameState) (d : DateTime) : Finding :=
  ⟨st.target, st.cnameChain, [], none, none, none, "CNAME Base Domain Expired",
    some (formatDateTime d)⟩

/-- The WHOIS cross-check at the end of `BadDNS_cname.analyze`: an error
result containing `"No match for"` appends the unregistered finding; a
response result has its expiration date extracted, normalized by
`date_parse`, and compared against the current date; an absent result
appends nothing.  `today` models `date.today()`. -/
def whoisFindings (st : CnameState) (today : Date) (parse : String → Option DateTime) :
    List Finding :=
  match st.whoisResult with
  | none => []
  | some (WhoisResult.error data) =>
    if strContainsSub data "No match for" then [unregisteredFinding st] else []
  | some (WhoisResult.response exp) =>
    match date_parse parse (extractExpiration exp) with
    | some d => if Date.isBefore d.date today then [expiredFinding st d] else []
    | none => []

/-- Embeds `BadDNS_cname.analyze`: the branch findings followed by the WHOIS
cross-check findings. -/
def cname_analyze (im : String → String → Bool) (sigs : List Signature) (st : CnameState)
    (today : Date) (parse : String → Option DateTime) : List Finding :=
  branchFindings im sigs st ++ whoisFindings st today parse

/-- The state of a `BadDNS_ns` instance after `dispatch`, as read by
`analyze`: the (possibly CNAME-rewritten) target, the nameserver set stored
under `answers["NS"]` by the delegation walk, and `answers["SOA"]`. -/
structure NsState where
  target : String
  ns : List String
  soa : Option (List String)
deriving DecidableEq, Repr

/-- Embeds `BadDNS_ns.get_substring_matches`: the set of nameserver strings that
contain some pattern, paired with the set of patterns contained in some
nameserver string; `none` when both are empty. -/
def get_substring_matches (nameservers strings : List String) :
    Option (List String × List String) :=
  let matched_nameservers :=
    (nameservers.filter (fun ns => strings.any (fun s => strContainsSub ns s))).dedup
  let matched_signatures :=
    (strings.filter (fun s => nameservers.any (fun ns => strContainsSub ns s))).dedup
  if matched_nameservers.isEmpty && matched_signatures.isEmpty then none
  else some (matched_nameservers, matched_signatures)

/-- The signature loop of `BadDNS_ns.analyze`: the first `dns_nosoa`
signature with a non-`None` substring-match result wins (`break`), yielding
its `service_name` and the matched pattern set. -/
def nsFirstMatch (nss : List String) : List Signature → Option (String × List String)
  | [] => none
  | sig :: rest =>
    if sig.mode = "dns_nosoa" then
      match get_substring_matches nss sig.nameservers with
      | some r => some (sig.service_name, r.2)
      | none => nsFirstMatch nss rest
    else nsFirstMatch nss rest

/-- The finding appended by `BadDNS_ns.analyze` in the no-SOA branch. -/
def nsFinding (st : NsState) (r : Option (String × List String)) : Finding :=
  ⟨st.target, [], st.ns,
    some (match r with | some p => p.1 | none => "GENERIC"),
    none,
    (match r with | some p => some p.2 | none => none),
    "NS RECORD WITHOUT SOA", none⟩

/-- Embeds `BadDNS_ns.analyze`: the Python function returns the boolean `False`
when no nameservers were found, and otherwise a (possibly empty) findings
list, so its result type is a sum. -/
def ns_analyze (sigs : List Signature) (st : NsState) : Sum Bool (List Finding) :=
  if st.ns.length > 0 then
    Sum.inr (if st.soa = none then [nsFinding st (nsFirstMatch st.ns sigs)] else [])
  else Sum.inl false

/-- The DNS record types handled by the Resolution Record Store. -/
def allRecordTypes : List String := ["A", "AAAA", "CNAME", "MX", "NS", "SOA", "TXT"]

/-- An element of the `omit_types` argument as the code actually passes it:
either a record-type string, or (as in `BadDNS_ns.dispatch`) a whole list of
record-type strings nested as a single element. -/
inductive OmitEntry where
  | typ (t : String)
  | typeList (ts : List String)
deriving DecidableEq, BEq, Repr

/-- Modelled from the spec: `DNSManager.dispatchDNS` (the DNS Resolution
Collaborator, whose source is not in the repository slice) resolves the
record types of a query round while "skipping any record types in `omit`";
a type is skipped exactly when it is a member of the `omit` argument. -/
def queriedTypes (omitTypes : List OmitEntry) : List String :=
  allRecordTypes.filter (fun t => !(omitTypes.contains (OmitEntry.typ t)))

/-- The `omit_types` argument of the first `dispatchDNS` call in
`BadDNS_ns.dispatch`, exactly as written in the source: a list whose single
element is itself a list of the six type strings. -/
def nsDispatchFirstOmit : List OmitEntry :=
  [OmitEntry.typeList ["A", "AAAA", "MX", "NS", "SOA", "TXT"]]

/-- The `omit_types` the claim (and the comment in `BadDNS_ns.dispatch`)
describes: the six record types themselves, so that only CNAME is queried. -/
def nsDispatchClaimedOmit : List OmitEntry :=
  ["A", "AAAA", "MX", "NS", "SOA", "TXT"].map OmitEntry.typ

/-- A concrete Matcher Engine used by the concrete evaluations below. -/
def im0 : String → String → Bool := fun rule body => rule == "rule1" && body == "body1"

/-- A concrete lenient date parser that fails on every string. -/
def parseNone : String → Option DateTime := fun _ => none

/-- A concrete current date. -/
def today0 : Date := ⟨2026, 10, 12⟩

/-- A concrete datetime in the past relative to `today0`. -/
def dtOld : DateTime := ⟨⟨2020, 1, 2⟩, ⟨3, 4, 5⟩⟩

/-- A concrete NXDOMAIN signature. -/
def sigA : Signature := ⟨"dns_nxdomain", "ServiceA", [⟨"x.com"⟩], [], [], ""⟩

/-- A second concrete NXDOMAIN signature matching the same tails as `sigA`. -/
def sigB : Signature := ⟨"dns_nxdomain", "ServiceB", [⟨"x.com"⟩], [], [], ""⟩

/-- A concrete HTTP-mode signature. -/
def sigH : Signature := ⟨"http", "SvcH", [⟨"x.com"⟩], [], [], "rule1"⟩

/-- A concrete no-SOA signature. -/
def sigN : Signature := ⟨"dns_nosoa", "SvcN", [], [], ["awsdns", "azure"], ""⟩

/-- A concrete post-dispatch CNAME state whose chain tail is NXDOMAIN. -/
def stNx : CnameState :=
  ⟨"www.t.com", ["a.x.com"], "a.x.com", true, [], none, none, none, none, none⟩

/-- A concrete post-dispatch CNAME state whose chain tail resolves. -/
def stLive : CnameState :=
  ⟨"www.t.com", ["a.x.com"], "a.x.com", false, ["1.2.3.4"], some "body1", none, none, none, none⟩

/-- A concrete state carrying a WHOIS error that contains "No match for". -/
def stWhoisErr : CnameState :=
  ⟨"www.t.com", ["a.x.com"], "a.x.com", true, [], none, none, none, none,
    some (WhoisResult.error "No match for domain X.COM")⟩

/-- A concrete expiration field holding a structured datetime. -/
def efOld : ExpirationField := ExpirationField.one (DateValue.dt dtOld)

/-- A concrete state carrying a WHOIS response with an expired date. -/
def stWhoisResp : CnameState :=
  ⟨"www.t.com", ["a.x.com"], "a.x.com", true, [], none, none, none, none,
    some (WhoisResult.response efOld)⟩

/-- A concrete expiration field holding an unparseable date string (as list head). -/
def efStr : ExpirationField := ExpirationField.many (DateValue.str "not-a-date") []

/-- A concrete state carrying a WHOIS response with an unparseable date. -/
def stWhoisStr : CnameState :=
  ⟨"www.t.com", ["a.x.com"], "a.x.com", true, [], none, none, none, none,
    some (WhoisResult.response efStr)⟩

/-- A concrete NS state with nameservers and no SOA. -/
def stNs : NsState := ⟨"t.com", ["ns1.awsdns-10.org", "ns2.other.net"], none⟩

/-- A concrete NS state with nameservers and an SOA record. -/
def stNsSoa : NsState := ⟨"t.com", ["ns1.awsdns-10.org"], some ["soa.rec"]⟩

/-- A concrete NS state with no nameservers. -/
def stNsEmpty : NsState := ⟨"t.com", [], none⟩

theorem list_any_swap {α β : Type} (l₁ : List α) (l₂ : List β) (f : α → β → Bool) :
    l₁.any (fun a => l₂.any (fun b => f a b)) = l₂.any (fun b => l₁.any (fun a => f a b)) := by
  refine Bool.eq_iff_iff.mpr ?_
  simp only [List.any_eq_true]
  constructor
  · rintro ⟨a, ha, b, hb, h⟩
    exact ⟨b, hb, a, ha, h⟩
  · rintro ⟨b, hb, a, ha, h⟩
    exact ⟨a, ha, b, hb, h⟩

theorem dedup_filter_isEmpty {α : Type} [DecidableEq α] (l : List α) (p : α → Bool) :
    ((l.filter p).dedup).isEmpty = !(l.any p) := by
  refine Bool.eq_iff_iff.mpr ?_
  rw [List.isEmpty_iff, List.dedup_eq_nil, List.filter_eq_nil_iff]
  simp [List.any_eq_true]

theorem gsm_isSome (nss strs : List String) :
    (get_substring_matches nss strs).isSome
      = strs.any (fun s => nss.any (fun ns => strContainsSub ns s)) := by
  rw [get_substring_matches]
  simp only [dedup_filter_isEmpty]
  rw [list_any_swap]
  cases h : strs.any (fun s => nss.any (fun ns => strContainsSub ns s)) with
  | true => simp [h]
  | false => simp [h]

theorem gsm_snd (nss strs : List String) (r : List String × List String)
    (h : get_substring_matches nss strs = some r) :
    r.2 = (strs.filter (fun s => nss.any (fun ns => strContainsSub ns s))).dedup := by
  rw [get_substring_matches] at h
  split at h
  · exact absurd h (by simp)
  · cases h
    rfl

theorem nsFirstMatch_eq (nss : List String) (sigs : List Signature) :
    nsFirstMatch nss sigs
      = (sigs.find? (fun sig => decide (sig.mode = "dns_nosoa")
            && (get_substring_matches nss sig.nameservers).isSome)).map
          (fun sig => (sig.service_name,
            (sig.nameservers.filter (fun s => nss.any (fun ns => strContainsSub ns s))).dedup)) := by
  induction sigs with
  | nil => rfl
  | cons sig rest ih =>
    simp only [nsFirstMatch, List.find?_cons]
    by_cases hm : sig.mode = "dns_nosoa"
    · cases hg : get_substring_matches nss sig.nameservers with
      | some r => simp [hm, hg, gsm_snd nss sig.nameservers r hg]
      | none => simp [hm, hg, ih]
    · simp [hm, ih]

theorem firstSuffixMatch_isSome (tail : String) (cnames : List SigCname) :
    (firstSuffixMatch tail cnames).isSome
      = cnames.any (fun c => strEndsWith tail c.value) := by
  refine Bool.eq_iff_iff.mpr ?_
  rw [firstSuffixMatch]
  simp [List.find?_isSome, List.any_eq_true]

theorem nxdomainScanAux_eq (tail : String) (sigs : List Signature) (acc : String × Option String) :
    nxdomainScanAux tail acc sigs
      = match sigs.reverse.find? (fun sig => decide (sig.mode = "dns_nxdomain")
            && (firstSuffixMatch tail sig.cnames).isSome) with
        | some sig => (sig.service_name, firstSuffixMatch tail sig.cnames)
        | none => acc := by
  induction sigs generalizing acc with
  | nil => rfl
  | cons sig rest ih =>
    simp only [nxdomainScanAux, List.reverse_cons, List.find?_append]
    by_cases hm : sig.mode = "dns_nxdomain"
    · rw [if_pos hm]
      cases hfs : firstSuffixMatch tail sig.cnames with
      | some p =>
        simp only [ih]
        cases hr : rest.reverse.find? (fun sig => decide (sig.mode = "dns_nxdomain")
            && (firstSuffixMatch tail sig.cnames).isSome) with
        | some x => simp [Option.or]
        | none => simp [Option.or, List.find?, hm, hfs]
      | none =>
        simp only [ih]
        cases hr : rest.reverse.find? (fun sig => decide (sig.mode = "dns_nxdomain")
            && (firstSuffixMatch tail sig.cnames).isSome) with
        | some x => simp [Option.or]
        | none => simp [Option.or, List.find?, hm, hfs]
    · rw [if_neg hm]
      simp only [ih]
      cases hr : rest.reverse.find? (fun sig => decide (sig.mode = "dns_nxdomain")
          && (firstSuffixMatch tail sig.cnames).isSome) with
      | some x => simp [Option.or]
      | none => simp [Option.or, List.find?, hm]

theorem liveScan_eq (im : String → String → Bool) (st : CnameState) (sigs : List Signature) :
    liveScan im st sigs
      = (sigs.filter (fun sig => decide (sig.mode = "http") && liveSigMatches im st sig)).map
          (httpFinding st) := by
  induction sigs with
  | nil => rfl
  | cons sig rest ih =>
    simp only [liveScan, List.filter_cons]
    by_cases hm : sig.mode = "http"
    · by_cases hl : liveSigMatches im st sig = true
      · simp [hm, hl, ih]
      · simp [hm, hl, ih]
    · simp [hm, ih]

theorem branchFindings_technique (im : String → String → Bool) (sigs : List Signature)
    (st : CnameState) (f : Finding) (hf : f ∈ branchFindings im sigs st) :
    f.technique = "CNAME NXDOMAIN" ∨ f.technique = "HTTP String Match" := by
  rw [branchFindings] at hf
  split at hf
  · left
    simp only [List.mem_singleton] at hf
    subst hf
    rfl
  · right
    rw [liveScan_eq] at hf
    simp only [List.mem_map] at hf
    obtain ⟨sig, _, rfl⟩ := hf
    rfl

/-- C9: date normalization is idempotent: `date_parse` returns an
already-structured datetime unchanged, so re-applying it to its own
non-absent output yields the same value. -/
theorem claim_C9 (parse : String → Option DateTime) :
    (∀ d : DateTime, date_parse parse (DateValue.dt d) = some d)
    ∧ (∀ (v : DateValue) (d : DateTime), date_parse parse v = some d →
        date_parse parse (DateValue.dt d) = some d) :=
  ⟨fun _ => rfl, fun _ _ _ => rfl⟩

/-- Witness for C9 at a concrete parser and value. -/
theorem claim_C9_witness :
    date_parse parseNone (DateValue.dt dtOld) = some dtOld ∧
    date_parse parseNone (DateValue.dt dtOld) = some dtOld :=
  ⟨(claim_C9 parseNone).1 dtOld, (claim_C9 parseNone).2 (DateValue.dt dtOld) dtOld rfl⟩

/-- C10: the NS module's analyze returns the boolean False for an empty
nameserver set, but the empty findings list for a non-empty nameserver set
with an SOA present; the two negative results have different shapes. -/
theorem claim_C10 (sigs : List Signature) (st : NsState) :
    (st.ns = [] → ns_analyze sigs st = Sum.inl false)
    ∧ (st.ns ≠ [] → st.soa ≠ none → ns_analyze sigs st = Sum.inr [])
    ∧ Sum.inl false ≠ (Sum.inr [] : Sum Bool (List Finding)) := by
  refine ⟨?_, ?_, by simp⟩
  · intro h
    rw [ns_analyze]
    simp [h]
  · intro h1 h2
    rw [ns_analyze, if_pos (List.length_pos.mpr h1), if_neg h2]

/-- Witness for C10 at concrete states. -/
theorem claim_C10_witness :
    (ns_analyze [sigN] stNsEmpty = Sum.inl false)
    ∧ (ns_analyze [sigN] stNsSoa = Sum.inr []) :=
  ⟨(claim_C10 [sigN] stNsEmpty).1 rfl,
   (claim_C10 [sigN] stNsSoa).2.1 (by decide) (by decide)⟩

/-- C4: with nameservers present and SOA absent, the NS module's analyze
produces exactly one "NS RECORD WITHOUT SOA" finding; its signature data
come from the first (in corpus order) `dns_nosoa` signature some of whose
nameserver patterns occur as substrings of some discovered nameserver
(matched-pattern set recorded), and "GENERIC" with null matches when no
signature matches; with SOA present the findings list is empty. -/
theorem claim_C4 (sigs : List Signature) (st : NsState) (hns : st.ns ≠ []) :
    (∀ sig : Signature, (get_substring_matches st.ns sig.nameservers).isSome
        = sig.nameservers.any (fun s => st.ns.any (fun ns => strContainsSub ns s)))
    ∧ (st.soa = none →
        ns_analyze sigs st = Sum.inr [nsFinding st
          ((sigs.find? (fun sig => decide (sig.mode = "dns_nosoa")
              && sig.nameservers.any (fun s => st.ns.any (fun ns => strContainsSub ns s)))).map
            (fun sig => (sig.service_name,
              (sig.nameservers.filter (fun s => st.ns.any (fun ns => strContainsSub ns s))).dedup)))])
    ∧ (st.soa ≠ none → ns_analyze sigs st = Sum.inr []) := by
  refine ⟨fun sig => gsm_isSome st.ns sig.nameservers, ?_, ?_⟩
  · intro hsoa
    have hpred : (fun sig : Signature => decide (sig.mode = "dns_nosoa")
          && (get_substring_matches st.ns sig.nameservers).isSome)
        = (fun sig : Signature => decide (sig.mode = "dns_nosoa")
          && sig.nameservers.any (fun s => st.ns.any (fun ns => strContainsSub ns s))) := by
      funext sig
      rw [gsm_isSome]
    rw [ns_analyze, if_pos (List.length_pos.mpr hns), if_pos hsoa, nsFirstMatch_eq, hpred]
  · intro hsoa
    rw [ns_analyze, if_pos (List.length_pos.mpr hns), if_neg hsoa]

/-- Witness for C4 at a concrete corpus and state. -/
theorem claim_C4_witness :
    stNs.ns ≠ []
    ∧ stNs.soa = none
    ∧ ns_analyze [sigN] stNs = Sum.inr [nsFinding stNs
        (([sigN].find? (fun sig => decide (sig.mode = "dns_nosoa")
            && sig.nameservers.any (fun s => stNs.ns.any (fun ns => strContainsSub ns s)))).map
          (fun sig => (sig.service_name,
            (sig.nameservers.filter (fun s => stNs.ns.any (fun ns => strContainsSub ns s))).dedup)))] :=
  ⟨by decide, rfl, (claim_C4 [sigN] stNs (by decide)).2.1 rfl⟩

/-- C3: in the live branch the signature loop has no early termination: the
findings are exactly one "HTTP String Match" finding (with the signature's
service name) per `http`-mode corpus entry, in corpus order, that passes
the CNAME-identifier filter, the IP-identifier filter, and the Matcher
Engine on at least one non-null HTTP result variant. -/
theorem claim_C3 (im : String → String → Bool) (sigs : List Signature) (st : CnameState)
    (today : Date) (parse : String → Option DateTime) (h : st.nxdomain = false) :
    cname_analyze im sigs st today parse
      = (sigs.filter (fun sig => decide (sig.mode = "http")
            && ((sig.cnames.isEmpty
                  || sig.cnames.any (fun c => strContainsSub (st.cnameChain.getLastD "") c.value))
              && (sig.ips.isEmpty || sig.ips.any (fun ip => st.cnameIps.contains ip))
              && (httpResultsList st).any (fun hr =>
                  match hr with
                  | some r => im sig.matcher_rule r
                  | none => false)))).map (httpFinding st)
        ++ whoisFindings st today parse := by
  rw [cname_analyze, branchFindings, if_neg (by rw [h]; exact Bool.false_ne_true)]
  rw [liveScan_eq]
  simp only [liveSigMatches]

/-- Witness for C3 at a concrete corpus and live state. -/
theorem claim_C3_witness :
    stLive.nxdomain = false
    ∧ cname_analyze im0 [sigH] stLive today0 parseNone
      = ([sigH].filter (fun sig => decide (sig.mode = "http")
            && ((sig.cnames.isEmpty
                  || sig.cnames.any (fun c => strContainsSub (stLive.cnameChain.getLastD "") c.value))
              && (sig.ips.isEmpty || sig.ips.any (fun ip => stLive.cnameIps.contains ip))
              && (httpResultsList stLive).any (fun hr =>
                  match hr with
                  | some r => im0 sig.matcher_rule r
                  | none => false)))).map (httpFinding stLive)
        ++ whoisFindings stLive today0 parseNone :=
  ⟨rfl, claim_C3 im0 [sigH] stLive today0 parseNone rfl⟩

/-- Counterexample to C1 as stated: with two `dns_nxdomain` signatures that
both suffix-match the NXDOMAIN tail "a.x.com", the first in corpus order is
`sigA` with service name "ServiceA", yet the emitted finding's
`signature_name` is "ServiceB" of the later signature: the loop does not
stop at the first matching signature. -/
theorem claim_C1_counterexample :
    cname_analyze im0 [sigA, sigB] stNx today0 parseNone
      = [⟨"www.t.com", ["a.x.com"], [], some "ServiceB", some "x.com", none, "CNAME NXDOMAIN", none⟩]
    ∧ [sigA, sigB].find? (fun sig => decide (sig.mode = "dns_nxdomain")
        && sig.cnames.any (fun c => strEndsWith stNx.cnameTarget c.value)) = some sigA
    ∧ sigA.service_name = "ServiceA"
    ∧ ("ServiceA" : String) ≠ "ServiceB" := by
  refine ⟨by decide, by decide, rfl, by decide⟩

/-- Amended C1: the NXDOMAIN-branch finding's `signature_name` and
`matching_domain` come from the last (in corpus order) `dns_nxdomain`
signature with a suffix-matching CNAME pattern (its first matching pattern
is recorded); the defaults survive only when no signature matches.  A
signature matches exactly when some of its CNAME patterns is a suffix of
the tail domain. -/
theorem claim_C1_amended (im : String → String → Bool) (sigs : List Signature) (st : CnameState)
    (today : Date) (parse : String → Option DateTime) (h : st.nxdomain = true) :
    (cname_analyze im sigs st today parse
      = nxdomainFinding st
          (match sigs.reverse.find? (fun sig => decide (sig.mode = "dns_nxdomain")
              && (firstSuffixMatch st.cnameTarget sig.cnames).isSome) with
           | some sig => (sig.service_name, firstSuffixMatch st.cnameTarget sig.cnames)
           | none => ("Generic Dangling CNAME", none))
        :: whoisFindings st today parse)
    ∧ (∀ sig : Signature, (firstSuffixMatch st.cnameTarget sig.cnames).isSome
        = sig.cnames.any (fun c => strEndsWith st.cnameTarget c.value)) := by
  constructor
  · rw [cname_analyze, branchFindings, if_pos h, nxdomainScan, nxdomainScanAux_eq]
    rfl
  · exact fun sig => firstSuffixMatch_isSome st.cnameTarget sig.cnames

/-- Witness for the amended C1 at a concrete corpus and state. -/
theorem claim_C1_witness :
    stNx.nxdomain = true
    ∧ ((cname_analyze im0 [sigA, sigB] stNx today0 parseNone
        = nxdomainFinding stNx
            (match [sigA, sigB].reverse.find? (fun sig => decide (sig.mode = "dns_nxdomain")
                && (firstSuffixMatch stNx.cnameTarget sig.cnames).isSome) with
             | some sig => (sig.service_name, firstSuffixMatch stNx.cnameTarget sig.cnames)
             | none => ("Generic Dangling CNAME", none))
          :: whoisFindings stNx today0 parseNone)
      ∧ (∀ sig : Signature, (firstSuffixMatch stNx.cnameTarget sig.cnames).isSome
          = sig.cnames.any (fun c => strEndsWith stNx.cnameTarget c.value))) :=
  ⟨rfl, claim_C1_amended im0 [sigA, sigB] stNx today0 parseNone rfl⟩

/-- C5: whenever the chain tail is NXDOMAIN, the NXDOMAIN branch contributes
exactly one finding, with technique "CNAME NXDOMAIN", the original target
and the full CNAME chain; when no `dns_nxdomain` signature pattern is a
suffix of the tail domain its signature name is "Generic Dangling CNAME"
and its matching domain is null. -/
theorem claim_C5 (im : String → String → Bool) (sigs : List Signature) (st : CnameState)
    (today : Date) (parse : String → Option DateTime) (h : st.nxdomain = true) :
    ∃ f : Finding,
      branchFindings im sigs st = [f]
      ∧ cname_analyze im sigs st today parse = f :: whoisFindings st today parse
      ∧ f.technique = "CNAME NXDOMAIN"
      ∧ f.target = st.target
      ∧ f.cnames = st.cnameChain
      ∧ ((∀ sig ∈ sigs, sig.mode = "dns_nxdomain" →
            ∀ c ∈ sig.cnames, strEndsWith st.cnameTarget c.value = false) →
          f.signature_name = some "Generic Dangling CNAME" ∧ f.matching_domain = none) := by
  refine ⟨nxdomainFinding st (nxdomainScan st.cnameTarget sigs), ?_, ?_, rfl, rfl, rfl, ?_⟩
  · rw [branchFindings, if_pos h]
  · rw [cname_analyze, branchFindings, if_pos h]
    rfl
  · intro hnone
    have hfind : sigs.reverse.find? (fun sig => decide (sig.mode = "dns_nxdomain")
        && (firstSuffixMatch st.cnameTarget sig.cnames).isSome) = none := by
      rw [List.find?_eq_none]
      intro sig hmem
      rw [List.mem_reverse] at hmem
      simp only [Bool.and_eq_true, decide_eq_true_eq, not_and]
      intro hmode hsome
      rw [firstSuffixMatch_isSome, List.any_eq_true] at hsome
      obtain ⟨c, hc, hend⟩ := hsome
      rw [hnone sig hmem hmode c hc] at hend
      exact Bool.false_ne_true hend
    rw [nxdomainScan, nxdomainScanAux_eq, hfind]
    exact ⟨rfl, rfl⟩

/-- Witness for C5 at a concrete state with a non-matching corpus. -/
theorem claim_C5_witness :
    stNx.nxdomain = true
    ∧ ∃ f : Finding,
        branchFindings im0 [sigH] stNx = [f]
        ∧ cname_analyze im0 [sigH] stNx today0 parseNone = f :: whoisFindings stNx today0 parseNone
        ∧ f.technique = "CNAME NXDOMAIN"
        ∧ f.target = stNx.target
        ∧ f.cnames = stNx.cnameChain
        ∧ ((∀ sig ∈ [sigH], sig.mode = "dns_nxdomain" →
              ∀ c ∈ sig.cnames, strEndsWith stNx.cnameTarget c.value = false) →
            f.signature_name = some "Generic Dangling CNAME" ∧ f.matching_domain = none) :=
  ⟨rfl, claim_C5 im0 [sigH] stNx today0 parseNone rfl⟩

/-- C6: given a WHOIS response whose (first-element-normalized) expiration
date parses to a datetime strictly earlier than the current date, analyze
appends exactly one "CNAME Base Domain Expired" finding carrying the date
formatted as YYYY-MM-DD HH:MM:SS; for an equal-or-later expiration date it
appends none. -/
theorem claim_C6 (im : String → String → Bool) (sigs : List Signature) (st : CnameState)
    (today : Date) (parse : String → Option DateTime) (ef : ExpirationField) (d : DateTime)
    (hw : st.whoisResult = some (WhoisResult.response ef))
    (hd : date_parse parse (extractExpiration ef) = some d) :
    (Date.isBefore d.date today = true →
      (cname_analyze im sigs st today parse).filter
          (fun f => decide (f.technique = "CNAME Base Domain Expired"))
        = [⟨st.target, st.cnameChain, [], none, none, none, "CNAME Base Domain Expired",
            some (formatDateTime d)⟩])
    ∧ (Date.isBefore d.date today = false →
      (cname_analyze im sigs st today parse).filter
          (fun f => decide (f.technique = "CNAME Base Domain Expired")) = []) := by
  have hbranch : (branchFindings im sigs st).filter
      (fun f => decide (f.technique = "CNAME Base Domain Expired")) = [] := by
    rw [List.filter_eq_nil_iff]
    intro f hf
    rcases branchFindings_technique im sigs st f hf with ht | ht <;> simp [ht]
  constructor
  · intro hlt
    rw [cname_analyze, List.filter_append, hbranch, List.nil_append]
    simp only [whoisFindings, hw, hd]
    rw [if_pos hlt]
    simp [expiredFinding]
  · intro hge
    rw [cname_analyze, List.filter_append, hbranch, List.nil_append]
    simp only [whoisFindings, hw, hd]
    rw [if_neg (by rw [hge]; exact Bool.false_ne_true)]
    rfl

/-- Witness for C6 at a concrete state with an expired structured date. -/
theorem claim_C6_witness :
    stWhoisResp.whoisResult = some (WhoisResult.response efOld)
    ∧ date_parse parseNone (extractExpiration efOld) = some dtOld
    ∧ ((Date.isBefore dtOld.date today0 = true →
        (cname_analyze im0 [] stWhoisResp today0 parseNone).filter
            (fun f => decide (f.technique = "CNAME Base Domain Expired"))
          = [⟨stWhoisResp.target, stWhoisResp.cnameChain, [], none, none, none,
              "CNAME Base Domain Expired", some (formatDateTime dtOld)⟩])
      ∧ (Date.isBefore dtOld.date today0 = false →
        (cname_analyze im0 [] stWhoisResp today0 parseNone).filter
            (fun f => decide (f.technique = "CNAME Base Domain Expired")) = [])) :=
  ⟨rfl, rfl, claim_C6 im0 [] stWhoisResp today0 parseNone efOld dtOld rfl rfl⟩

/-- C7: a WHOIS error result containing "No match for" appends exactly one
"CNAME unregistered" finding with null signature fields after the branch
findings (whichever branch ran); a WHOIS error without that substring, or
an absent WHOIS result, contributes no WHOIS-derived finding. -/
theorem claim_C7 (im : String → String → Bool) (sigs : List Signature) (st : CnameState)
    (today : Date) (parse : String → Option DateTime) :
    (∀ data : String, st.whoisResult = some (WhoisResult.error data) →
        strContainsSub data "No match for" = true →
        cname_analyze im sigs st today parse
          = branchFindings im sigs st
            ++ [⟨st.target, st.cnameChain, [], none, none, none, "CNAME unregistered", none⟩])
    ∧ (∀ data : String, st.whoisResult = some (WhoisResult.error data) →
        strContainsSub data "No match for" = false →
        cname_analyze im sigs st today parse = branchFindings im sigs st)
    ∧ (st.whoisResult = none →
        cname_analyze im sigs st today parse = branchFindings im sigs st) := by
  refine ⟨?_, ?_, ?_⟩
  · intro data hw hc
    rw [cname_analyze]
    simp only [whoisFindings, hw]
    rw [if_pos hc]
    rfl
  · intro data hw hc
    rw [cname_analyze]
    simp only [whoisFindings, hw]
    rw [if_neg (by rw [hc]; exact Bool.false_ne_true)]
    exact List.append_nil _
  · intro hw
    rw [cname_analyze]
    simp only [whoisFindings, hw]
    exact List.append_nil _

/-- Witness for C7 at concrete states (error with the substring, and an
absent WHOIS result). -/
theorem claim_C7_witness :
    (stWhoisErr.whoisResult = some (WhoisResult.error "No match for domain X.COM")
      ∧ strContainsSub "No match for domain X.COM" "No match for" = true
      ∧ cname_analyze im0 [] stWhoisErr today0 parseNone
          = branchFindings im0 [] stWhoisErr
            ++ [⟨stWhoisErr.target, stWhoisErr.cnameChain, [], none, none, none,
                "CNAME unregistered", none⟩])
    ∧ (stNx.whoisResult = none
      ∧ cname_analyze im0 [] stNx today0 parseNone = branchFindings im0 [] stNx) :=
  ⟨⟨rfl, by decide,
    (claim_C7 im0 [] stWhoisErr today0 parseNone).1 "No match for domain X.COM" rfl (by decide)⟩,
   ⟨rfl, (claim_C7 im0 [] stNx today0 parseNone).2.2 rfl⟩⟩

/-- C8: an unparseable date string yields an absent normalized date, no
"CNAME Base Domain Expired" finding, and the branch findings are returned
unchanged; the parse failure does not abort analyze. -/
theorem claim_C8 (im : String → String → Bool) (sigs : List Signature) (st : CnameState)
    (today : Date) (parse : String → Option DateTime) (ef : ExpirationField) (s : String)
    (hw : st.whoisResult = some (WhoisResult.response ef))
    (he : extractExpiration ef = DateValue.str s)
    (hp : parse s = none) :
    date_parse parse (DateValue.str s) = none
    ∧ cname_analyze im sigs st today parse = branchFindings im sigs st := by
  refine ⟨hp, ?_⟩
  rw [cname_analyze]
  simp only [whoisFindings, hw, he, date_parse, hp]
  exact List.append_nil _

/-- Witness for C8 at a concrete state with an unparseable date string. -/
theorem claim_C8_witness :
    stWhoisStr.whoisResult = some (WhoisResult.response efStr)
    ∧ extractExpiration efStr = DateValue.str "not-a-date"
    ∧ parseNone "not-a-date" = none
    ∧ date_parse parseNone (DateValue.str "not-a-date") = none
    ∧ cname_analyze im0 [] stWhoisStr today0 parseNone = branchFindings im0 [] stWhoisStr :=
  ⟨rfl, rfl, rfl,
    (claim_C8 im0 [] stWhoisStr today0 parseNone efStr "not-a-date" rfl rfl rfl).1,
    (claim_C8 im0 [] stWhoisStr today0 parseNone efStr "not-a-date" rfl rfl rfl).2⟩

/-- C2 (code behavior at the failing input): the first `dispatchDNS` call of
`BadDNS_ns.dispatch` passes a nested list as `omit_types`, and under the DNS
collaborator's contract no record type is a member of that list, so the
first query round queries every record type (A, AAAA, MX, NS, SOA, TXT
included) instead of only CNAME; the flat list the in-code comment
describes would indeed leave only CNAME. -/
theorem claim_C2_bug :
    queriedTypes nsDispatchFirstOmit = allRecordTypes
    ∧ "A" ∈ queriedTypes nsDispatchFirstOmit
    ∧ "SOA" ∈ queriedTypes nsDispatchFirstOmit
    ∧ queriedTypes nsDispatchClaimedOmit = ["CNAME"] := by
  refine ⟨by decide, by decide, by decide, by decide⟩

end BadDNS
